import Mathlib

/-!
Verification of the website-analyzer core (`analyzer.py`, class `WebsiteRater`).

The program fetches web pages, computes heuristic metric values from the
response and the parsed markup, turns them into rounded mean scores, and
aggregates a batch of URLs into a report.

Embedding conventions:
* Numeric values (`float` in the source) are modelled as exact rationals `ℚ`;
  Python `round(x, 2)` is modelled by `round2` (round to nearest hundredth).
* The external libraries `requests` and `BeautifulSoup` are modelled as an
  environment `fetch : String → FetchOutcome`: either every exception raised
  while fetching/parsing (timeout, connection failure, the non-2xx
  `raise_for_status`, a parser error), carrying its message, or the response
  data together with the wall-clock load time and the parsed document.
* A parsed document is abstracted as the record `Doc` of exactly the query
  results that the metric extractors read from the soup object.
* Wall-clock fields of the report (`timestamp`, `analysis_time`) are I/O and
  are left out of the pure `Report` record.
-/

/-- Python `round(x, 2)`: round to the nearest multiple of 1/100
(ties are immaterial for the claims considered here). -/
def round2 (q : ℚ) : ℚ := ((round (q * 100) : ℤ) : ℚ) / 100

/-- The fields of the `requests` response object that the analyzer reads:
`len(response.content)`, `response.elapsed.total_seconds()`, and whether
`'gzip' in response.headers.get('Content-Encoding', '')`. -/
structure Response where
  contentBytes : Nat
  elapsedSeconds : ℚ
  gzipEncoded : Bool
  deriving DecidableEq

/-- The queries that the metric extractors perform on the parsed document
(`soup`), recorded as data.  Each field corresponds to one BeautifulSoup
lookup in `analyzer.py`:
* `hasStyleOrLink` — `soup.find_all(['style', 'link'])` nonempty;
* `hasPrefersColorScheme` — `'prefers-color-scheme' in str(soup)`;
* `fontFamilyElemCount` — number of distinct style/link element strings
  containing `'font-family'` (the `fonts` set in `_analyze_typography`);
* `headingCount` — `len(soup.find_all(['h1',...,'h6']))`;
* `semanticTagCount` — how many of the seven semantic tags
  header/nav/main/article/section/aside/footer `soup.find` locates;
* `hasViewportMeta` — a `meta name="viewport"` element exists;
* `hasMediaQuery` — `'@media' in str(soup)`;
* `hasPictureOrSource` — `soup.find_all(['picture', 'source'])` nonempty;
* `hasH1`, `hasListElem`, `hasEmphasisElem`, `hasBlockquoteOrFigure` —
  the corresponding lookups in `_analyze_visual_hierarchy`;
* `imgAlts` — one entry per `<img>`, `true` iff `img.get('alt')` is truthy
  (a non-empty alt attribute);
* `roleCount` — `len(soup.find_all(role=True))`;
* `forms` — one `(field count, label count)` pair per `<form>`;
* `hasTitle`, `hasMetaDescription`, `hasCanonical` — the SEO lookups;
* `htmlLang` — `none` iff `soup.html` is `None` (the markup has no `<html>`
  element), otherwise `some b` with `b` true iff `soup.html.get('lang')`
  is truthy. -/
structure Doc where
  hasStyleOrLink : Bool
  hasPrefersColorScheme : Bool
  fontFamilyElemCount : Nat
  headingCount : Nat
  semanticTagCount : Nat
  hasViewportMeta : Bool
  hasMediaQuery : Bool
  hasPictureOrSource : Bool
  hasH1 : Bool
  hasListElem : Bool
  hasEmphasisElem : Bool
  hasBlockquoteOrFigure : Bool
  imgAlts : List Bool
  roleCount : Nat
  forms : List (Nat × Nat)
  hasTitle : Bool
  hasMetaDescription : Bool
  hasCanonical : Bool
  htmlLang : Option Bool
  deriving DecidableEq

/-- Outcome of `requests.get` + `raise_for_status` + `BeautifulSoup` (lines
81–85 of `analyzer.py`): `error msg` models any exception raised there
(timeout, connection error, non-2xx status, parse failure), `ok` carries the
response, the measured wall-clock load time, and the parsed document. -/
inductive FetchOutcome where
  | error (msg : String)
  | ok (resp : Response) (loadTime : ℚ) (doc : Doc)
  deriving DecidableEq

/-- The `_rate_metric` threshold-ladder loop, with the running `enumerate`
index made explicit. -/
def rate_metric_go (value : ℚ) (reverse : Bool) : List ℚ → Nat → ℚ
  | [], _ => if reverse then 0 else 10
  | t :: ts, i =>
      if value ≤ t then
        (if reverse then 10 - (i : ℚ) * 2 else ((i : ℚ) + 1) * 2)
      else rate_metric_go value reverse ts (i + 1)

/-- Source `_rate_metric(value, thresholds, reverse)`. -/
def rate_metric (value : ℚ) (thresholds : List ℚ) (reverse : Bool) : ℚ :=
  rate_metric_go value reverse thresholds 0

/-- The four performance metric values (`_check_performance`). -/
structure PerfMetrics where
  load_time : ℚ
  response_size : ℚ
  ttfb : ℚ
  compression : ℚ
  deriving DecidableEq

/-- Sum of the performance metric dict values. -/
def PerfMetrics.sum (m : PerfMetrics) : ℚ :=
  m.load_time + m.response_size + m.ttfb + m.compression

/-- Source `_check_performance(response, load_time)`. -/
def check_performance (r : Response) (load_time : ℚ) : PerfMetrics :=
  { load_time := rate_metric load_time [1, 2, 3, 4, 5] false
    response_size :=
      rate_metric ((r.contentBytes : ℚ) / 1024 / 1024) [1, 2, 5, 10, 20] true
    ttfb := rate_metric r.elapsedSeconds [0.1, 0.3, 0.5, 0.8, 1] true
    compression := if r.gzipEncoded then 10 else 0 }

/-- Source `_analyze_color_contrast(soup)`. -/
def analyze_color_contrast (d : Doc) : ℚ :=
  (if d.hasStyleOrLink then 5 else 0) +
    (if d.hasPrefersColorScheme then 5 else 0)

/-- Source `_analyze_typography(soup)`: `min(len(fonts)*2, 5)` plus 5 when any
heading exists. -/
def analyze_typography (d : Doc) : ℚ :=
  min ((d.fontFamilyElemCount : ℚ) * 2) 5 +
    (if d.headingCount ≠ 0 then 5 else 0)

/-- Source `_analyze_layout(soup)`: 1.5 per present semantic tag, capped at 10. -/
def analyze_layout (d : Doc) : ℚ :=
  min ((d.semanticTagCount : ℚ) * 1.5) 10

/-- Source `_check_responsive_design(soup)`. -/
def check_responsive_design (d : Doc) : ℚ :=
  (if d.hasViewportMeta then 4 else 0) + (if d.hasMediaQuery then 3 else 0) +
    (if d.hasPictureOrSource then 3 else 0)

/-- Source `_analyze_visual_hierarchy(soup)`. -/
def analyze_visual_hierarchy (d : Doc) : ℚ :=
  (if d.hasH1 then 3 else 0) + (if d.hasListElem then 2 else 0) +
    (if d.hasEmphasisElem then 2 else 0) +
    (if d.hasBlockquoteOrFigure then 3 else 0)

/-- Source `_analyze_headings(soup)`: 0 when no headings, else `min(count*2, 10)`. -/
def analyze_headings (d : Doc) : ℚ :=
  if d.headingCount = 0 then 0 else min ((d.headingCount : ℚ) * 2) 10

/-- Source `_check_img_alt(soup)`: 10 when no images, else the rounded fraction of
images with a truthy alt attribute, scaled to 0–10. -/
def check_img_alt (d : Doc) : ℚ :=
  if d.imgAlts.isEmpty then 10
  else
    round2 (((d.imgAlts.countP (fun b => b) : ℚ) / (d.imgAlts.length : ℚ)) * 10)

/-- Source `_check_aria_landmarks(soup)`: `min(role_count*2, 10)`. -/
def check_aria_landmarks (d : Doc) : ℚ :=
  min ((d.roleCount : ℚ) * 2) 10

/-- Source `_check_form_labels(soup)`: 10 when no forms; otherwise 5 per form whose
field count is nonzero and at most its label count, capped at 10. -/
def check_form_labels (d : Doc) : ℚ :=
  if d.forms.isEmpty then 10
  else
    min ((d.forms.countP (fun p => decide (0 < p.1 ∧ p.1 ≤ p.2)) : ℚ) * 5) 10

/-- The five design metric values (`_analyze_design`). -/
structure DesignMetrics where
  color_contrast : ℚ
  typography : ℚ
  layout_structure : ℚ
  responsive_design : ℚ
  visual_hierarchy : ℚ
  deriving DecidableEq

/-- Sum of the design metric dict values. -/
def DesignMetrics.sum (m : DesignMetrics) : ℚ :=
  m.color_contrast + m.typography + m.layout_structure + m.responsive_design +
    m.visual_hierarchy

/-- Source `_analyze_design(soup)`. -/
def analyze_design (d : Doc) : DesignMetrics :=
  { color_contrast := analyze_color_contrast d
    typography := analyze_typography d
    layout_structure := analyze_layout d
    responsive_design := check_responsive_design d
    visual_hierarchy := analyze_visual_hierarchy d }

/-- The five SEO metric values (`_check_seo_basics`). -/
structure SeoMetrics where
  title : ℚ
  meta_description : ℚ
  headings : ℚ
  img_alt : ℚ
  canonical : ℚ
  deriving DecidableEq

/-- Sum of the SEO metric dict values. -/
def SeoMetrics.sum (m : SeoMetrics) : ℚ :=
  m.title + m.meta_description + m.headings + m.img_alt + m.canonical

/-- Source `_check_seo_basics(soup)`. -/
def check_seo_basics (d : Doc) : SeoMetrics :=
  { title := if d.hasTitle then 10 else 0
    meta_description := if d.hasMetaDescription then 10 else 0
    headings := analyze_headings d
    img_alt := check_img_alt d
    canonical := if d.hasCanonical then 10 else 0 }

/-- The five accessibility metric values (`_check_accessibility`). -/
structure AccessMetrics where
  lang_attribute : ℚ
  aria_landmarks : ℚ
  form_labels : ℚ
  alt_texts : ℚ
  heading_structure : ℚ
  deriving DecidableEq

/-- Sum of the accessibility metric dict values. -/
def AccessMetrics.sum (m : AccessMetrics) : ℚ :=
  m.lang_attribute + m.aria_landmarks + m.form_labels + m.alt_texts +
    m.heading_structure

/-- The Python message of the `AttributeError` raised by
`soup.html.get('lang')` when `soup.html` is `None`. -/
def noneTypeGetMsg : String := "NoneType object has no attribute get"

/-- Source `_check_accessibility(soup)`: `none` models the `AttributeError` raised
by `soup.html.get('lang')` when the document has no `html` element. -/
def check_accessibility (d : Doc) : Option AccessMetrics :=
  match d.htmlLang with
  | none => none
  | some lang =>
      some
        { lang_attribute := if lang then 10 else 0
          aria_landmarks := check_aria_landmarks d
          form_labels := check_form_labels d
          alt_texts := check_img_alt d
          heading_structure := analyze_headings d }

/-- The `scores` dict of a successful analysis. -/
structure Scores where
  performance_score : ℚ
  design_score : ℚ
  seo_score : ℚ
  accessibility_score : ℚ
  overall_score : ℚ
  deriving DecidableEq

/-- The `metrics` dict of a successful analysis. -/
structure Metrics where
  performance : PerfMetrics
  design : DesignMetrics
  seo : SeoMetrics
  accessibility : AccessMetrics
  deriving DecidableEq

/-- Lines 94–102 of `analyzer.py`: each category score is the rounded mean of
that category's metric values, and the overall score is the rounded mean of
the four category scores. -/
def compute_scores (pm : PerfMetrics) (dm : DesignMetrics) (sm : SeoMetrics)
    (am : AccessMetrics) : Scores :=
  let ps := round2 (pm.sum / 4)
  let ds := round2 (dm.sum / 5)
  let ss := round2 (sm.sum / 5)
  let acs := round2 (am.sum / 5)
  { performance_score := ps
    design_score := ds
    seo_score := ss
    accessibility_score := acs
    overall_score := round2 ((ps + ds + ss + acs) / 4) }

/-- One entry of `detailed_results`: the success dict
`{'success': True, 'url', 'scores', 'metrics'}` or the failure dict
`{'success': False, 'url', 'error'}`. -/
inductive SiteResult where
  | success (url : String) (scores : Scores) (metrics : Metrics)
  | failure (url : String) (error : String)
  deriving DecidableEq

/-- The `r['success']` flag. -/
def SiteResult.isSuccess : SiteResult → Bool
  | .success _ _ _ => true
  | .failure _ _ => false

/-- The `r['url']` field. -/
def SiteResult.url : SiteResult → String
  | .success u _ _ => u
  | .failure u _ => u

/-- The `r['scores']['overall_score']` lookup, guarded in the source by
`r['success']`; reads 0 on a failure entry. -/
def SiteResult.overallScore : SiteResult → ℚ
  | .success _ sc _ => sc.overall_score
  | .failure _ _ => 0

/-- The `r['scores']` lookup as an option, for collecting successes. -/
def SiteResult.getScores : SiteResult → Option Scores
  | .success _ sc _ => some sc
  | .failure _ _ => none

/-- URL normalization at the top of `analyze_website`: prepend `https://`
unless the URL already starts with `http://` or `https://`. -/
def normalize_url (url : String) : String :=
  if url.startsWith ("http://") || url.startsWith ("https://") then url
  else "https://" ++ url

/-- Source `analyze_website(url)`: normalize the URL, fetch and parse it, compute
the four metric groups and the scores; any exception (from the fetch/parse,
or the `soup.html.get` dereference on a document without an `html` element)
is caught by the surrounding `try`/`except` and becomes a failure result
carrying the normalized URL and the error message. -/
def analyze_website (fetch : String → FetchOutcome) (url : String) :
    SiteResult :=
  let nurl := normalize_url url
  match fetch nurl with
  | .error msg => .failure nurl msg
  | .ok resp load_time doc =>
      match check_accessibility doc with
      | none => .failure nurl noneTypeGetMsg
      | some am =>
          let pm := check_performance resp load_time
          let dm := analyze_design doc
          let sm := check_seo_basics doc
          .success nurl (compute_scores pm dm sm am)
            { performance := pm, design := dm, seo := sm, accessibility := am }

/-- Source `_get_top_performers(results, threshold)`. -/
def get_top_performers (results : List SiteResult) (threshold : ℚ) :
    List SiteResult :=
  results.filter fun r =>
    match r with
    | .success _ sc _ => decide (threshold ≤ sc.overall_score)
    | .failure _ _ => false

/-- Source `_get_needs_improvement(results, threshold)`. -/
def get_needs_improvement (results : List SiteResult) (threshold : ℚ) :
    List SiteResult :=
  results.filter fun r =>
    match r with
    | .success _ sc _ => decide (sc.overall_score ≤ threshold)
    | .failure _ _ => false

/-- The report dict built by `analyze_websites` (without the wall-clock
`timestamp` and `analysis_time` fields).  `average_scores` is `none` when the
source leaves the dict empty (no successful results). -/
structure Report where
  total_sites : Nat
  successful_analyses : Nat
  average_scores : Option Scores
  detailed_results : List SiteResult
  top_performers : List SiteResult
  needs_improvement : List SiteResult
  deriving DecidableEq

/-- Source `analyze_websites(urls)`: one `analyze_website` task per URL on a worker
pool bounded by `max_workers`; results are collected by iterating
`future_to_url` in submission (input) order, so the collected list is the
input-order map of `analyze_website` over the URLs and `max_workers` bounds
only the scheduling (wall-clock), not the returned data.  The coordinator's
own `try`/`except` (which would convert an exception escaping a worker into a
failure entry for that URL) has no counterpart here because the embedded
`analyze_website` is total.  Averages are taken over successful results only,
guarded by the emptiness test on line 47. -/
def analyze_websites (max_workers : Nat) (fetch : String → FetchOutcome)
    (urls : List String) : Report :=
  let results := urls.map (analyze_website fetch)
  let succScores := results.filterMap SiteResult.getScores
  let average_scores : Option Scores :=
    if succScores.isEmpty then none
    else
      some
        { performance_score :=
            round2 ((succScores.map Scores.performance_score).sum /
              (succScores.length : ℚ))
          design_score :=
            round2 ((succScores.map Scores.design_score).sum /
              (succScores.length : ℚ))
          seo_score :=
            round2 ((succScores.map Scores.seo_score).sum /
              (succScores.length : ℚ))
          accessibility_score :=
            round2 ((succScores.map Scores.accessibility_score).sum /
              (succScores.length : ℚ))
          overall_score :=
            round2 ((succScores.map Scores.overall_score).sum /
              (succScores.length : ℚ)) }
  { total_sites := urls.length
    successful_analyses := succScores.length
    average_scores := average_scores
    detailed_results := results
    top_performers := get_top_performers results 8
    needs_improvement := get_needs_improvement results 5 }

/-- A score value lies in the interval [0, 10]. -/
def inRange (q : ℚ) : Prop := 0 ≤ q ∧ q ≤ 10

instance (q : ℚ) : Decidable (inRange q) :=
  inferInstanceAs (Decidable (0 ≤ q ∧ q ≤ 10))

/-- Every sub-score, every category score, and the overall score of a
successful analysis lies in [0, 10]. -/
def AllInRange (sc : Scores) (m : Metrics) : Prop :=
  inRange m.performance.load_time ∧ inRange m.performance.response_size ∧
  inRange m.performance.ttfb ∧ inRange m.performance.compression ∧
  inRange m.design.color_contrast ∧ inRange m.design.typography ∧
  inRange m.design.layout_structure ∧ inRange m.design.responsive_design ∧
  inRange m.design.visual_hierarchy ∧
  inRange m.seo.title ∧ inRange m.seo.meta_description ∧
  inRange m.seo.headings ∧ inRange m.seo.img_alt ∧ inRange m.seo.canonical ∧
  inRange m.accessibility.lang_attribute ∧
  inRange m.accessibility.aria_landmarks ∧
  inRange m.accessibility.form_labels ∧ inRange m.accessibility.alt_texts ∧
  inRange m.accessibility.heading_structure ∧
  inRange sc.performance_score ∧ inRange sc.design_score ∧
  inRange sc.seo_score ∧ inRange sc.accessibility_score ∧
  inRange sc.overall_score

/-- Example document: a fully featured page with three images of which two
carry a non-empty alt attribute. -/
def exDoc : Doc :=
  { hasStyleOrLink := true, hasPrefersColorScheme := true,
    fontFamilyElemCount := 3, headingCount := 4, semanticTagCount := 7,
    hasViewportMeta := true, hasMediaQuery := true, hasPictureOrSource := true,
    hasH1 := true, hasListElem := true, hasEmphasisElem := true,
    hasBlockquoteOrFigure := true, imgAlts := [true, true, false],
    roleCount := 5, forms := [(2, 2)], hasTitle := true,
    hasMetaDescription := true, hasCanonical := true, htmlLang := some true }

/-- Example response: 500 KB gzip-encoded body with a 1/20 s time to first
byte. -/
def exResp : Response :=
  { contentBytes := 512000, elapsedSeconds := 1 / 20, gzipEncoded := true }

/-- A deterministic fetcher that returns `exResp`/`exDoc` (1/20 s load time)
for every URL. -/
def exFetchOk : String → FetchOutcome := fun _ => .ok exResp (1 / 20) exDoc

/-- A deterministic fetcher on which every URL fails with a timeout. -/
def exErrFetch : String → FetchOutcome := fun _ => .error ("connection timed out")

/-- Example document whose markup has no top-level `html` element. -/
def exNoHtmlDoc : Doc := { exDoc with htmlLang := none }

/-- A deterministic fetcher returning a 2xx response whose markup has no
`html` element. -/
def exNoHtmlFetch : String → FetchOutcome :=
  fun _ => .ok exResp (1 / 20) exNoHtmlDoc

/-- The accessibility metric values of `exDoc` (the branch of
`check_accessibility` taken when the lang attribute is present); evaluates to
lang 10, aria 10, forms 5, alt 6.67, headings 8. -/
def exAccessMetrics : AccessMetrics :=
  ⟨10, check_aria_landmarks exDoc, check_form_labels exDoc,
    check_img_alt exDoc, analyze_headings exDoc⟩

/-- The metric values that `analyze_website` computes from `exFetchOk`;
evaluates to performance (2, 10, 10, 10), design (10, 10, 10, 10, 10),
seo (10, 10, 8, 6.67, 10), accessibility (10, 10, 5, 6.67, 8). -/
def exMetrics : Metrics :=
  ⟨check_performance exResp (1 / 20), analyze_design exDoc,
    check_seo_basics exDoc, exAccessMetrics⟩

/-- The scores that `analyze_website` computes from `exFetchOk`; evaluates to
performance 8, design 10, seo 8.93, accessibility 7.93, overall 8.72. -/
def exScores : Scores :=
  compute_scores exMetrics.performance exMetrics.design exMetrics.seo
    exMetrics.accessibility

/-- All-zero metric values, used for handmade example results. -/
def exMetricsZero : Metrics := ⟨⟨0, 0, 0, 0⟩, ⟨0, 0, 0, 0, 0⟩, ⟨0, 0, 0, 0, 0⟩, ⟨0, 0, 0, 0, 0⟩⟩

/-- Example success result sitting exactly on the 8.0 boundary. -/
def exS8 : SiteResult := .success ("https://a") ⟨8, 8, 8, 8, 8⟩ exMetricsZero

/-- Example success result just below the 8.0 boundary and just above the
5.0 boundary. -/
def exS799 : SiteResult :=
  .success ("https://b") ⟨799 / 100, 799 / 100, 799 / 100, 799 / 100, 799 / 100⟩ exMetricsZero

/-- Example success result sitting exactly on the 5.0 boundary. -/
def exS5 : SiteResult := .success ("https://d") ⟨5, 5, 5, 5, 5⟩ exMetricsZero

/-- Example success result just above the 5.0 boundary. -/
def exS501 : SiteResult :=
  .success ("https://e")
    ⟨501 / 100, 501 / 100, 501 / 100, 501 / 100, 501 / 100⟩ exMetricsZero

/-- Example failure result. -/
def exFail : SiteResult := .failure ("https://c") ("boom")

/-- Example result list exercising both filter boundaries. -/
def exViewList : List SiteResult := [exS8, exS799, exS5, exS501, exFail]

/-! ## Unfolding lemmas for the analyzer pipeline -/

lemma analyze_website_fetch_error (fetch : String → FetchOutcome)
    (url msg : String) (h : fetch (normalize_url url) = .error msg) :
    analyze_website fetch url = .failure (normalize_url url) msg := by
  simp only [analyze_website, h]

lemma analyze_website_acc_none (fetch : String → FetchOutcome) (url : String)
    (resp : Response) (lt : ℚ) (doc : Doc)
    (hf : fetch (normalize_url url) = .ok resp lt doc)
    (ha : check_accessibility doc = none) :
    analyze_website fetch url = .failure (normalize_url url) noneTypeGetMsg := by
  simp only [analyze_website, hf, ha]

lemma analyze_website_ok (fetch : String → FetchOutcome) (url : String)
    (resp : Response) (lt : ℚ) (doc : Doc) (am : AccessMetrics)
    (hf : fetch (normalize_url url) = .ok resp lt doc)
    (ha : check_accessibility doc = some am) :
    analyze_website fetch url =
      .success (normalize_url url)
        (compute_scores (check_performance resp lt) (analyze_design doc)
          (check_seo_basics doc) am)
        ⟨check_performance resp lt, analyze_design doc, check_seo_basics doc,
          am⟩ := by
  simp only [analyze_website, hf, ha]

lemma analyze_website_success_inv (fetch : String → FetchOutcome)
    (url u : String) (sc : Scores) (m : Metrics)
    (h : analyze_website fetch url = .success u sc m) :
    ∃ resp lt doc am,
      fetch (normalize_url url) = .ok resp lt doc ∧
      check_accessibility doc = some am ∧
      u = normalize_url url ∧
      m = ⟨check_performance resp lt, analyze_design doc, check_seo_basics doc,
        am⟩ ∧
      sc = compute_scores m.performance m.design m.seo m.accessibility := by
  cases hf : fetch (normalize_url url) with
  | error msg =>
      rw [analyze_website_fetch_error fetch url msg hf] at h
      exact absurd h (by simp)
  | ok resp lt doc =>
      cases ha : check_accessibility doc with
      | none =>
          rw [analyze_website_acc_none fetch url resp lt doc hf ha] at h
          exact absurd h (by simp)
      | some am =>
          rw [analyze_website_ok fetch url resp lt doc am hf ha] at h
          injection h with h1 h2 h3
          subst h1
          subst h2
          subst h3
          exact ⟨resp, lt, doc, am, rfl, ha, rfl, rfl, rfl⟩

lemma detailed_results_eq (mw : Nat) (fetch : String → FetchOutcome)
    (urls : List String) :
    (analyze_websites mw fetch urls).detailed_results =
      urls.map (analyze_website fetch) := rfl

lemma successful_analyses_eq (mw : Nat) (fetch : String → FetchOutcome)
    (urls : List String) :
    (analyze_websites mw fetch urls).successful_analyses =
      ((urls.map (analyze_website fetch)).filterMap SiteResult.getScores).length :=
  rfl

/-! ## C1, C2, C9 -/

/-- C1: for every batch call, `detailed_results` is exactly the input-order
map of `analyze_website` over the input URLs, so it contains exactly one
result (success or failure) per input URL — `len(results) == len(urls)`,
never zero results for a URL and never a duplicated result. -/
theorem batch_yields_one_result_per_url (mw : Nat)
    (fetch : String → FetchOutcome) (urls : List String) :
    (analyze_websites mw fetch urls).detailed_results.length = urls.length ∧
    (analyze_websites mw fetch urls).detailed_results =
      urls.map (analyze_website fetch) := by
  refine ⟨?_, rfl⟩
  rw [detailed_results_eq]
  exact List.length_map urls (analyze_website fetch)

/-- C2: `analyze_website` never raises — on any transport/parse error it
returns a Failure result carrying the (normalized) URL and the error
message; and every entry of a batch's result list is the value of
`analyze_website` for one of the input URLs (the batch never aborts on a
failing site). -/
theorem analyzer_boundary_never_raises (fetch : String → FetchOutcome)
    (url msg : String) (h : fetch (normalize_url url) = .error msg) :
    analyze_website fetch url = .failure (normalize_url url) msg ∧
    ∀ (mw : Nat) (urls : List String),
      ∀ r ∈ (analyze_websites mw fetch urls).detailed_results,
        ∃ u, u ∈ urls ∧ r = analyze_website fetch u := by
  refine ⟨analyze_website_fetch_error fetch url msg h, ?_⟩
  intro mw urls r hr
  rw [detailed_results_eq, List.mem_map] at hr
  obtain ⟨u, hu, hru⟩ := hr
  exact ⟨u, hu, hru.symm⟩

/-- Witness for C2 at a concrete failing fetch. -/
theorem analyzer_boundary_never_raises_witness :
    analyze_website exErrFetch ("example.com") =
      .failure (normalize_url ("example.com")) ("connection timed out") :=
  (analyzer_boundary_never_raises exErrFetch ("example.com")
    ("connection timed out") rfl).1

/-- C9: the worker-pool size (`max_workers`) affects only the scheduling of
the fetches, never the computed report: batches with pool size 1 and pool
size 5 over the same URLs and the same deterministic fetcher produce
identical reports (the wall-clock fields are outside the pure model). -/
theorem worker_pool_size_no_effect (fetch : String → FetchOutcome)
    (urls : List String) :
    analyze_websites 1 fetch urls = analyze_websites 5 fetch urls := rfl

/-! ## C3: category scores and the overall score are rounded means -/

/-- C3: for every Success result, each category score equals the arithmetic
mean of its category's metric values rounded to 2 decimals, and the overall
score equals the mean of the four category scores rounded to 2 decimals. -/
theorem success_scores_are_rounded_means (fetch : String → FetchOutcome)
    (url u : String) (sc : Scores) (m : Metrics)
    (h : analyze_website fetch url = .success u sc m) :
    sc.performance_score = round2 (m.performance.sum / 4) ∧
    sc.design_score = round2 (m.design.sum / 5) ∧
    sc.seo_score = round2 (m.seo.sum / 5) ∧
    sc.accessibility_score = round2 (m.accessibility.sum / 5) ∧
    sc.overall_score =
      round2 ((sc.performance_score + sc.design_score + sc.seo_score +
        sc.accessibility_score) / 4) := by
  obtain ⟨resp, lt, doc, am, hf, ha, hu, hm, hsc⟩ :=
    analyze_website_success_inv fetch url u sc m h
  subst hm
  subst hsc
  exact ⟨rfl, rfl, rfl, rfl, rfl⟩

/-- Witness for C3: the concrete success result of the example fetcher. -/
theorem success_scores_are_rounded_means_witness :
    exScores.performance_score = round2 (exMetrics.performance.sum / 4) ∧
    exScores.design_score = round2 (exMetrics.design.sum / 5) ∧
    exScores.seo_score = round2 (exMetrics.seo.sum / 5) ∧
    exScores.accessibility_score = round2 (exMetrics.accessibility.sum / 5) ∧
    exScores.overall_score =
      round2 ((exScores.performance_score + exScores.design_score +
        exScores.seo_score + exScores.accessibility_score) / 4) :=
  success_scores_are_rounded_means exFetchOk ("example.com")
    (normalize_url ("example.com")) exScores exMetrics
    (analyze_website_ok exFetchOk ("example.com") exResp (1 / 20) exDoc
      exAccessMetrics rfl rfl)

/-! ## C10: a 2xx document without an html element becomes a Failure -/

/-- C10: when the fetch and parse succeed but the markup has no top-level
`html` element, the accessibility check dereferences `soup.html` (which is
`None`), so `analyze_website` reports a Failure for that URL instead of a
scored Success. -/
theorem no_html_element_yields_failure (fetch : String → FetchOutcome)
    (url : String) (resp : Response) (lt : ℚ) (doc : Doc)
    (hf : fetch (normalize_url url) = .ok resp lt doc)
    (hd : doc.htmlLang = none) :
    analyze_website fetch url = .failure (normalize_url url) noneTypeGetMsg := by
  have ha : check_accessibility doc = none := by
    simp only [check_accessibility, hd]
  exact analyze_website_acc_none fetch url resp lt doc hf ha

/-- Witness for C10: a concrete 2xx fetch whose markup lacks `html`. -/
theorem no_html_element_yields_failure_witness :
    analyze_website exNoHtmlFetch ("example.com") =
      .failure (normalize_url ("example.com")) noneTypeGetMsg :=
  no_html_element_yields_failure exNoHtmlFetch ("example.com") exResp (1 / 20)
    exNoHtmlDoc rfl rfl

/-! ## C4: the threshold ladder -/

lemma rate_metric_go_above (value : ℚ) (reverse : Bool) (ts : List ℚ) :
    ∀ k : Nat, (∀ t ∈ ts, t < value) →
      rate_metric_go value reverse ts k = if reverse then 0 else 10 := by
  induction ts with
  | nil => intro k h; rfl
  | cons t ts ih =>
      intro k h
      have ht : t < value := h t (List.mem_cons_self t ts)
      rw [rate_metric_go, if_neg (not_le.mpr ht)]
      exact ih (k + 1) (fun x hx => h x (List.mem_cons_of_mem t hx))

lemma rate_metric_go_first_hit (value : ℚ) (reverse : Bool) (ts : List ℚ) :
    ∀ (k i : Nat) (hi : i < ts.length), value ≤ ts.get ⟨i, hi⟩ →
      (∀ j, j < i → ∀ hj : j < ts.length, ts.get ⟨j, hj⟩ < value) →
      rate_metric_go value reverse ts k =
        if reverse then 10 - ((k : ℚ) + (i : ℚ)) * 2
        else ((k : ℚ) + (i : ℚ) + 1) * 2 := by
  induction ts with
  | nil => intro k i hi; exact absurd hi (by simp)
  | cons t ts ih =>
      intro k i hi hle hfirst
      cases i with
      | zero =>
          simp only [List.get] at hle
          rw [rate_metric_go, if_pos hle]
          push_cast
          split <;> ring
      | succ n =>
          have ht : t < value := hfirst 0 (Nat.succ_pos n) (by simp)
          rw [rate_metric_go, if_neg (not_le.mpr ht)]
          have hn : n < ts.length := by simpa using hi
          have hle2 : value ≤ ts.get ⟨n, hn⟩ := by
            simp only [List.get] at hle
            exact hle
          have hfirst2 : ∀ j, j < n → ∀ hj : j < ts.length,
              ts.get ⟨j, hj⟩ < value := by
            intro j hj hjl
            have h3 := hfirst (j + 1) (Nat.succ_lt_succ hj)
              (by simpa using Nat.succ_lt_succ hjl)
            simp only [List.get] at h3
            exact h3
          rw [ih (k + 1) n hn hle2 hfirst2]
          push_cast
          split <;> ring

/-- C4: `_rate_metric` behaves as the specified threshold ladder for every
value and every threshold list: in ascending mode a value above every
threshold scores 10 and the first index i with value ≤ threshold[i] scores
(i+1)*2; in descending (reverse) mode a value above every threshold scores 0
and the first such index scores 10 − 2i. -/
theorem rate_metric_threshold_ladder (value : ℚ) (ts : List ℚ) :
    ((∀ t ∈ ts, t < value) →
        rate_metric value ts false = 10 ∧ rate_metric value ts true = 0) ∧
    (∀ i, ∀ hi : i < ts.length, value ≤ ts.get ⟨i, hi⟩ →
        (∀ j, j < i → ∀ hj : j < ts.length, ts.get ⟨j, hj⟩ < value) →
        rate_metric value ts false = ((i : ℚ) + 1) * 2 ∧
        rate_metric value ts true = 10 - 2 * (i : ℚ)) := by
  constructor
  · intro h
    constructor
    · rw [rate_metric, rate_metric_go_above value false ts 0 h]
      rfl
    · rw [rate_metric, rate_metric_go_above value true ts 0 h]
      rfl
  · intro i hi hle hfirst
    constructor
    · rw [rate_metric, rate_metric_go_first_hit value false ts 0 i hi hle hfirst]
      norm_num
    · rw [rate_metric, rate_metric_go_first_hit value true ts 0 i hi hle hfirst]
      norm_num
      ring

/-- Witness for C4: the value 1.5 against the load-time ladder hits index 1
(scores 4 ascending, 8 descending), and the value 7 clears every threshold
(scores 10 ascending, 0 descending). -/
theorem rate_metric_threshold_ladder_witness :
    rate_metric (3 / 2) [1, 2, 3, 4, 5] false = 4 ∧
    rate_metric (3 / 2) [1, 2, 3, 4, 5] true = 8 ∧
    rate_metric 7 [1, 2, 3, 4, 5] false = 10 ∧
    rate_metric 7 [1, 2, 3, 4, 5] true = 0 := by
  have hfirst : ∀ j, j < 1 → ∀ hj : j < ([1, 2, 3, 4, 5] : List ℚ).length,
      ([1, 2, 3, 4, 5] : List ℚ).get ⟨j, hj⟩ < 3 / 2 := by
    intro j hj hjl
    have hj0 : j = 0 := by omega
    subst hj0
    simp only [List.get]
    norm_num
  obtain ⟨h1, h2⟩ := (rate_metric_threshold_ladder (3 / 2) [1, 2, 3, 4, 5]).2
    1 (by norm_num) (by simp only [List.get]; norm_num)
    hfirst
  obtain ⟨h3, h4⟩ := (rate_metric_threshold_ladder 7 [1, 2, 3, 4, 5]).1
    (by intro t ht; simp at ht; rcases ht with h | h | h | h | h <;>
      rw [h] <;> norm_num)
  refine ⟨?_, ?_, h3, h4⟩
  · rw [h1]; norm_num
  · rw [h2]; norm_num

/-! ## C6: batches with zero successes -/

lemma average_scores_none_of (mw : Nat) (fetch : String → FetchOutcome)
    (urls : List String)
    (h : (urls.map (analyze_website fetch)).filterMap SiteResult.getScores =
      []) :
    (analyze_websites mw fetch urls).average_scores = none := by
  simp [analyze_websites, h]

/-- C6: a batch whose results contain zero successes reports
`success_count == 0` with an absent average-scores aggregate (and no
division is attempted), and the empty URL list yields total 0, success 0,
absent aggregates and an empty result list. -/
theorem zero_success_batch_report (mw : Nat) (fetch : String → FetchOutcome)
    (urls : List String) :
    ((∀ r ∈ (analyze_websites mw fetch urls).detailed_results,
          r.isSuccess = false) →
        (analyze_websites mw fetch urls).successful_analyses = 0 ∧
        (analyze_websites mw fetch urls).average_scores = none) ∧
    ((analyze_websites mw fetch []).total_sites = 0 ∧
      (analyze_websites mw fetch []).successful_analyses = 0 ∧
      (analyze_websites mw fetch []).average_scores = none ∧
      (analyze_websites mw fetch []).detailed_results = [] ∧
      (analyze_websites mw fetch []).top_performers = [] ∧
      (analyze_websites mw fetch []).needs_improvement = []) := by
  constructor
  · intro h
    have hnil : (urls.map (analyze_website fetch)).filterMap
        SiteResult.getScores = [] := by
      rw [List.filterMap_eq_nil_iff]
      intro r hr
      have hs := h r (by rw [detailed_results_eq]; exact hr)
      cases r with
      | success u sc m => simp [SiteResult.isSuccess] at hs
      | failure u e => rfl
    refine ⟨?_, average_scores_none_of mw fetch urls hnil⟩
    rw [successful_analyses_eq, hnil]
    rfl
  · exact ⟨rfl, rfl, rfl, rfl, rfl, rfl⟩

/-- Witness for C6: a two-URL batch in which every fetch times out. -/
theorem zero_success_batch_report_witness :
    (analyze_websites 1 exErrFetch ["a", "b"]).successful_analyses = 0 ∧
    (analyze_websites 1 exErrFetch ["a", "b"]).average_scores = none :=
  (zero_success_batch_report 1 exErrFetch ["a", "b"]).1 (by
    intro r hr
    rw [detailed_results_eq, List.mem_map] at hr
    obtain ⟨u, hu, rfl⟩ := hr
    rw [analyze_website_fetch_error exErrFetch u ("connection timed out") rfl]
    rfl)

/-! ## C7: the filtered views and their boundaries -/

/-- C7: the top-performers view contains exactly the success results with
overall score ≥ 8.0, the needs-improvement view exactly those with overall
score ≤ 5.0 (both boundaries included), failures appear in neither, and the
report fields are exactly these filters over the result list. -/
theorem filtered_views_boundary (results : List SiteResult) (r : SiteResult) :
    (r ∈ get_top_performers results 8 ↔
        r ∈ results ∧ r.isSuccess = true ∧ 8 ≤ r.overallScore) ∧
    (r ∈ get_needs_improvement results 5 ↔
        r ∈ results ∧ r.isSuccess = true ∧ r.overallScore ≤ 5) ∧
    (r.isSuccess = false →
        r ∉ get_top_performers results 8 ∧
        r ∉ get_needs_improvement results 5) ∧
    (∀ (mw : Nat) (fetch : String → FetchOutcome) (urls : List String),
        (analyze_websites mw fetch urls).top_performers =
          get_top_performers
            (analyze_websites mw fetch urls).detailed_results 8 ∧
        (analyze_websites mw fetch urls).needs_improvement =
          get_needs_improvement
            (analyze_websites mw fetch urls).detailed_results 5) := by
  have htop : r ∈ get_top_performers results 8 ↔
      r ∈ results ∧ r.isSuccess = true ∧ 8 ≤ r.overallScore := by
    rw [get_top_performers, List.mem_filter]
    cases r with
    | success u sc m => simp [SiteResult.isSuccess, SiteResult.overallScore]
    | failure u e => simp [SiteResult.isSuccess]
  have hneed : r ∈ get_needs_improvement results 5 ↔
      r ∈ results ∧ r.isSuccess = true ∧ r.overallScore ≤ 5 := by
    rw [get_needs_improvement, List.mem_filter]
    cases r with
    | success u sc m => simp [SiteResult.isSuccess, SiteResult.overallScore]
    | failure u e => simp [SiteResult.isSuccess]
  refine ⟨htop, hneed, ?_, fun mw fetch urls => ⟨rfl, rfl⟩⟩
  intro hf
  constructor
  · intro hmem
    have hs := (htop.mp hmem).2.1
    rw [hf] at hs
    exact Bool.noConfusion hs
  · intro hmem
    have hs := (hneed.mp hmem).2.1
    rw [hf] at hs
    exact Bool.noConfusion hs

/-- Witness for C7: both boundary values on both filters, plus a failure
entry excluded from both. -/
theorem filtered_views_boundary_witness :
    exS8 ∈ get_top_performers exViewList 8 ∧
    exS799 ∉ get_top_performers exViewList 8 ∧
    exS5 ∈ get_needs_improvement exViewList 5 ∧
    exS501 ∉ get_needs_improvement exViewList 5 ∧
    exFail ∉ get_top_performers exViewList 8 ∧
    exFail ∉ get_needs_improvement exViewList 5 := by
  refine ⟨?_, ?_, ?_, ?_, ?_, ?_⟩
  · exact (filtered_views_boundary exViewList exS8).1.mpr
      ⟨by simp [exViewList], rfl, le_refl (8 : ℚ)⟩
  · intro hmem
    have h8 := ((filtered_views_boundary exViewList exS799).1.mp hmem).2.2
    norm_num [exS799, SiteResult.overallScore] at h8
  · exact (filtered_views_boundary exViewList exS5).2.1.mpr
      ⟨by simp [exViewList], rfl, le_refl (5 : ℚ)⟩
  · intro hmem
    have h5 := ((filtered_views_boundary exViewList exS501).2.1.mp hmem).2.2
    norm_num [exS501, SiteResult.overallScore] at h5
  · exact ((filtered_views_boundary exViewList exFail).2.2.1 rfl).1
  · exact ((filtered_views_boundary exViewList exFail).2.2.1 rfl).2

/-! ## C8: the image-alt metric -/

/-- C8: `img_alt` is exactly 10 for a document with no images, otherwise the
rounded 0–10 fraction of images with a non-empty alt attribute; with 3
images of which 2 have alt text the metric is 6.67. -/
theorem img_alt_metric_spec (d : Doc) :
    (d.imgAlts = [] → check_img_alt d = 10) ∧
    (d.imgAlts ≠ [] →
        check_img_alt d =
          round2 (((d.imgAlts.countP (fun b => b) : ℚ) /
            (d.imgAlts.length : ℚ)) * 10)) ∧
    (d.imgAlts = [true, true, false] → check_img_alt d = 6.67) := by
  have hgen : d.imgAlts ≠ [] →
      check_img_alt d =
        round2 (((d.imgAlts.countP (fun b => b) : ℚ) /
          (d.imgAlts.length : ℚ)) * 10) := by
    intro h
    rw [check_img_alt, if_neg]
    rw [List.isEmpty_iff]
    exact h
  refine ⟨?_, hgen, ?_⟩
  · intro h
    rw [check_img_alt, if_pos]
    rw [h]
    rfl
  · intro h
    rw [hgen (by rw [h]; simp), h]
    have hc : (([true, true, false] : List Bool).countP (fun b => b)) = 2 :=
      rfl
    rw [hc]
    rw [round2, round_eq]
    norm_num [Int.floor_eq_iff]

/-- Witness for C8: the example document with images [alt, alt, no-alt]. -/
theorem img_alt_metric_spec_witness : check_img_alt exDoc = 6.67 :=
  (img_alt_metric_spec exDoc).2.2 rfl

/-! ## C5: all scores lie in the interval [0, 10] -/

lemma round2_inRange {q : ℚ} (h0 : 0 ≤ q) (h1 : q ≤ 10) :
    inRange (round2 q) := by
  rw [inRange, round2]
  have hl : (0 : ℤ) ≤ round (q * 100) := by
    rw [round_eq]
    refine Int.le_floor.mpr ?_
    push_cast
    nlinarith
  have hu : round (q * 100) ≤ 1000 := by
    rw [round_eq]
    have hf : (⌊q * 100 + 1 / 2⌋ : ℤ) < 1001 := by
      refine Int.floor_lt.mpr ?_
      push_cast
      nlinarith
    omega
  constructor
  · apply div_nonneg _ (by norm_num)
    exact_mod_cast hl
  · rw [div_le_iff₀ (by norm_num : (0 : ℚ) < 100)]
    calc ((round (q * 100) : ℤ) : ℚ) ≤ 1000 := by exact_mod_cast hu
      _ = 10 * 100 := by norm_num

lemma ite_ten_zero_inRange (c : Prop) [Decidable c] :
    inRange (if c then (10 : ℚ) else 0) := by
  rw [inRange]
  split <;> norm_num

lemma min_cap_inRange (a c : ℚ) (ha : 0 ≤ a) (hc0 : 0 ≤ c) (hc1 : c ≤ 10) :
    inRange (min a c) :=
  ⟨le_min ha hc0, le_trans (min_le_right a c) hc1⟩

lemma rate_metric_go_inRange (v : ℚ) (rev : Bool) (ts : List ℚ) :
    ∀ k : Nat, k + ts.length ≤ 5 → inRange (rate_metric_go v rev ts k) := by
  induction ts with
  | nil =>
      intro k _
      rw [rate_metric_go, inRange]
      split <;> norm_num
  | cons t ts ih =>
      intro k hk
      have hk4 : (k : ℚ) ≤ 4 := by
        have : k ≤ 4 := by simp at hk; omega
        exact_mod_cast this
      have hk0 : (0 : ℚ) ≤ (k : ℚ) := Nat.cast_nonneg k
      rw [rate_metric_go]
      split
      · rw [inRange]
        split
        · constructor <;> nlinarith
        · constructor <;> nlinarith
      · refine ih (k + 1) ?_
        simp at hk ⊢
        omega

lemma rate_metric_inRange (v : ℚ) (ts : List ℚ) (rev : Bool)
    (h : ts.length ≤ 5) : inRange (rate_metric v ts rev) :=
  rate_metric_go_inRange v rev ts 0 (by omega)

lemma analyze_color_contrast_inRange (d : Doc) :
    inRange (analyze_color_contrast d) := by
  rw [analyze_color_contrast, inRange]
  split <;> split <;> norm_num

lemma analyze_typography_inRange (d : Doc) :
    inRange (analyze_typography d) := by
  rw [analyze_typography, inRange]
  have h1 : (0 : ℚ) ≤ min ((d.fontFamilyElemCount : ℚ) * 2) 5 :=
    le_min (by positivity) (by norm_num)
  have h2 : min ((d.fontFamilyElemCount : ℚ) * 2) 5 ≤ 5 := min_le_right _ _
  split <;> constructor <;> linarith

lemma analyze_layout_inRange (d : Doc) : inRange (analyze_layout d) :=
  min_cap_inRange _ _ (by positivity) (by norm_num) (by norm_num)

lemma check_responsive_design_inRange (d : Doc) :
    inRange (check_responsive_design d) := by
  rw [check_responsive_design, inRange]
  split <;> split <;> split <;> norm_num

lemma analyze_visual_hierarchy_inRange (d : Doc) :
    inRange (analyze_visual_hierarchy d) := by
  rw [analyze_visual_hierarchy, inRange]
  split <;> split <;> split <;> split <;> norm_num

lemma analyze_headings_inRange (d : Doc) : inRange (analyze_headings d) := by
  rw [analyze_headings]
  split
  · rw [inRange]; norm_num
  · exact min_cap_inRange _ _ (by positivity) (by norm_num) (by norm_num)

lemma check_img_alt_inRange (d : Doc) : inRange (check_img_alt d) := by
  rw [check_img_alt]
  split
  · rw [inRange]; norm_num
  · rename_i h
    have hne : d.imgAlts ≠ [] := by
      intro hcon
      rw [hcon] at h
      exact h rfl
    have hlen : 0 < (d.imgAlts.length : ℚ) := by
      have := List.length_pos.mpr hne
      exact_mod_cast this
    have hc : (d.imgAlts.countP (fun b => b) : ℚ) ≤ (d.imgAlts.length : ℚ) :=
      by exact_mod_cast List.countP_le_length (fun b => b)
    refine round2_inRange (by positivity) ?_
    have hdiv : (d.imgAlts.countP (fun b => b) : ℚ) /
        (d.imgAlts.length : ℚ) ≤ 1 := (div_le_one hlen).mpr hc
    nlinarith

lemma check_aria_landmarks_inRange (d : Doc) :
    inRange (check_aria_landmarks d) :=
  min_cap_inRange _ _ (by positivity) (by norm_num) (by norm_num)

lemma check_form_labels_inRange (d : Doc) :
    inRange (check_form_labels d) := by
  rw [check_form_labels]
  split
  · rw [inRange]; norm_num
  · exact min_cap_inRange _ _ (by positivity) (by norm_num) (by norm_num)

lemma round2_mean4_inRange {a b c e : ℚ} (ha : inRange a) (hb : inRange b)
    (hc : inRange c) (he : inRange e) :
    inRange (round2 ((a + b + c + e) / 4)) := by
  obtain ⟨ha0, ha1⟩ := ha
  obtain ⟨hb0, hb1⟩ := hb
  obtain ⟨hc0, hc1⟩ := hc
  obtain ⟨he0, he1⟩ := he
  exact round2_inRange (by linarith) (by linarith)

lemma round2_mean5_inRange {a b c e f : ℚ} (ha : inRange a) (hb : inRange b)
    (hc : inRange c) (he : inRange e) (hf : inRange f) :
    inRange (round2 ((a + b + c + e + f) / 5)) := by
  obtain ⟨ha0, ha1⟩ := ha
  obtain ⟨hb0, hb1⟩ := hb
  obtain ⟨hc0, hc1⟩ := hc
  obtain ⟨he0, he1⟩ := he
  obtain ⟨hf0, hf1⟩ := hf
  exact round2_inRange (by linarith) (by linarith)

lemma check_accessibility_some_inRange (d : Doc) (am : AccessMetrics)
    (h : check_accessibility d = some am) :
    inRange am.lang_attribute ∧ inRange am.aria_landmarks ∧
    inRange am.form_labels ∧ inRange am.alt_texts ∧
    inRange am.heading_structure := by
  rw [check_accessibility] at h
  cases hd : d.htmlLang with
  | none => rw [hd] at h; exact absurd h (by simp)
  | some lang =>
      rw [hd] at h
      simp only [Option.some.injEq] at h
      subst h
      exact ⟨ite_ten_zero_inRange _, check_aria_landmarks_inRange d,
        check_form_labels_inRange d, check_img_alt_inRange d,
        analyze_headings_inRange d⟩

/-- C5: for every Success result produced by `analyze_website`, every
sub-score, every category score, and the overall score lies in [0, 10]. -/
theorem success_result_scores_in_range (fetch : String → FetchOutcome)
    (url u : String) (sc : Scores) (m : Metrics)
    (h : analyze_website fetch url = .success u sc m) : AllInRange sc m := by
  obtain ⟨resp, lt, doc, am, hf, ha, hu, hm, hsc⟩ :=
    analyze_website_success_inv fetch url u sc m h
  obtain ⟨ha1, ha2, ha3, ha4, ha5⟩ := check_accessibility_some_inRange doc am ha
  subst hm
  subst hsc
  have p1 : inRange (check_performance resp lt).load_time :=
    rate_metric_inRange _ _ _ (by norm_num)
  have p2 : inRange (check_performance resp lt).response_size :=
    rate_metric_inRange _ _ _ (by norm_num)
  have p3 : inRange (check_performance resp lt).ttfb :=
    rate_metric_inRange _ _ _ (by norm_num)
  have p4 : inRange (check_performance resp lt).compression :=
    ite_ten_zero_inRange _
  have d1 : inRange (analyze_design doc).color_contrast :=
    analyze_color_contrast_inRange doc
  have d2 : inRange (analyze_design doc).typography :=
    analyze_typography_inRange doc
  have d3 : inRange (analyze_design doc).layout_structure :=
    analyze_layout_inRange doc
  have d4 : inRange (analyze_design doc).responsive_design :=
    check_responsive_design_inRange doc
  have d5 : inRange (analyze_design doc).visual_hierarchy :=
    analyze_visual_hierarchy_inRange doc
  have s1 : inRange (check_seo_basics doc).title := ite_ten_zero_inRange _
  have s2 : inRange (check_seo_basics doc).meta_description :=
    ite_ten_zero_inRange _
  have s3 : inRange (check_seo_basics doc).headings :=
    analyze_headings_inRange doc
  have s4 : inRange (check_seo_basics doc).img_alt := check_img_alt_inRange doc
  have s5 : inRange (check_seo_basics doc).canonical := ite_ten_zero_inRange _
  have cp : inRange (round2 ((check_performance resp lt).sum / 4)) :=
    round2_mean4_inRange p1 p2 p3 p4
  have cd : inRange (round2 ((analyze_design doc).sum / 5)) :=
    round2_mean5_inRange d1 d2 d3 d4 d5
  have cs : inRange (round2 ((check_seo_basics doc).sum / 5)) :=
    round2_mean5_inRange s1 s2 s3 s4 s5
  have ca : inRange (round2 (am.sum / 5)) :=
    round2_mean5_inRange ha1 ha2 ha3 ha4 ha5
  have cov : inRange (round2 ((round2 ((check_performance resp lt).sum / 4) +
      round2 ((analyze_design doc).sum / 5) +
      round2 ((check_seo_basics doc).sum / 5) + round2 (am.sum / 5)) / 4)) :=
    round2_mean4_inRange cp cd cs ca
  exact ⟨p1, p2, p3, p4, d1, d2, d3, d4, d5, s1, s2, s3, s4, s5,
    ha1, ha2, ha3, ha4, ha5, cp, cd, cs, ca, cov⟩

/-- Witness for C5: the concrete success result of the example fetcher. -/
theorem success_result_scores_in_range_witness : AllInRange exScores exMetrics :=
  success_result_scores_in_range exFetchOk ("example.com")
    (normalize_url ("example.com")) exScores exMetrics
    (analyze_website_ok exFetchOk ("example.com") exResp (1 / 20) exDoc
      exAccessMetrics rfl rfl)
